import Mathlib

/-!
Shallow embedding of `geemap/cartoee.py` (single-module convenience layer that
renders Earth Engine imagery onto cartopy axes).

Conventions of the embedding:
* Python floats are modelled as rationals (`ℚ`); all the module's arithmetic is
  exact coordinate arithmetic, no transcendental functions are involved.
* Python's binary `%` on numbers is `pymod` below (`a - b * ⌊a / b⌋`), which
  agrees with Python for every nonzero divisor (the result carries the sign of
  the divisor).  Python raises `ZeroDivisionError` for divisor `0`; theorems
  about `%`-using code therefore carry a nonzero/positivity hypothesis.
* Python dictionaries are association lists `List (String × PyVal)`; dict
  member lookup is `List.lookup` (a Python dict holds each key once).
* Remote calls, matplotlib drawing and image decoding are side effects of the
  external collaborators; the embedding records them in an explicit `Effect`
  trace and takes the external data they return from an `Externals` record.
-/

/-- A dynamically typed Python value, to the granularity the module inspects:
`type(x) in (int, float, str, list, tuple)` checks and truthiness.  The only
lists/tuples the module looks inside are numeric (`dims`, `region`), so the
container cases carry `List ℚ`; any other object is `vother`. -/
inductive PyVal where
  | vint (n : ℤ)
  | vfloat (q : ℚ)
  | vstr (s : String)
  | vlist (l : List ℚ)
  | vtuple (l : List ℚ)
  | vnone
  | vother (tag : String)
deriving DecidableEq, Repr

/-- Python truthiness of a value (`if x:`). -/
def PyVal.truthy : PyVal → Bool
  | .vint n => n ≠ 0
  | .vfloat q => q ≠ 0
  | .vstr s => s ≠ ""
  | .vlist l => ¬ l.isEmpty
  | .vtuple l => ¬ l.isEmpty
  | .vnone => false
  | .vother _ => true

/-- `type(v) in (int, float)` — the module's "scalar" check. -/
def PyVal.isScalar : PyVal → Bool
  | .vint _ => true
  | .vfloat _ => true
  | _ => false

/-- Errors the module can raise (Python exception classes, with message where
the module supplies one). -/
inductive PyError where
  | valueError (msg : String)
  | keyError (msg : String)
  | httpError (msg : String)
  | unboundLocalError
  | attributeError
  | indexError
deriving DecidableEq, Repr

/-- `True` iff an `Except` result is an error. -/
def isErr : Except PyError α → Bool
  | .error _ => true
  | .ok _ => false

/-- Extent / bounding box in `(xmin, xmax, ymin, ymax)` order, the order used
by `_buffer_box`, `ax.get_extent()` and the view extents. -/
structure Box where
  xmin : ℚ
  xmax : ℚ
  ymin : ℚ
  ymax : ℚ
deriving DecidableEq, Repr

/-- A raw positional 4-tuple of numbers (used for the `region` argument, whose
entries are read purely positionally). -/
structure Quad where
  q0 : ℚ
  q1 : ℚ
  q2 : ℚ
  q3 : ℚ
deriving DecidableEq, Repr

/-- Python's float modulo `a % b` (for `b ≠ 0`): `a - b * floor (a / b)`. -/
def pymod (a b : ℚ) : ℚ := a - b * (⌊a / b⌋ : ℤ)

/-- `cartoee._buffer_box(bbox, interval)` — buffer a `(xmin, xmax, ymin, ymax)`
box to multiples of `interval`: minima are moved down by `bound % interval`,
maxima up by `interval - bound % interval`, bounds with `bound % interval == 0`
are kept. -/
def _buffer_box (bbox : Box) (interval : ℚ) : Box :=
  { xmin := if pymod bbox.xmin interval ≠ 0
      then bbox.xmin - pymod bbox.xmin interval else bbox.xmin
    xmax := if pymod bbox.xmax interval ≠ 0
      then bbox.xmax + (interval - pymod bbox.xmax interval) else bbox.xmax
    ymin := if pymod bbox.ymin interval ≠ 0
      then bbox.ymin - pymod bbox.ymin interval else bbox.ymin
    ymax := if pymod bbox.ymax interval ≠ 0
      then bbox.ymax + (interval - pymod bbox.ymax interval) else bbox.ymax }

/-- `cartoee.bbox_to_extent(bbox)`: positional remap
`(b0, b1, b2, b3) ↦ (b0, b2, b1, b3)`, i.e. `[W,S,E,N] → [W,E,S,N]`. -/
def bbox_to_extent (bbox : Quad) : Quad :=
  ⟨bbox.q0, bbox.q2, bbox.q1, bbox.q3⟩

/-- `numpy.arange(start, stop, step)` over `ℚ`: the values
`start + k * step` for `0 ≤ k < ⌈(stop - start) / step⌉`.  (`numpy` raises for
`step = 0`; the embedding returns `[]` there, no claim exercises it.) -/
def arange (start stop step : ℚ) : List ℚ :=
  if step = 0 then []
  else (List.range (⌈(stop - start) / step⌉).toNat).map
    fun k : ℕ => start + (k : ℚ) * step

/-- `numpy.linspace(start, stop, n)` over `ℚ`: `n` evenly spaced samples with
both endpoints included (for `n ≥ 2`). -/
def linspace (start stop : ℚ) (n : ℕ) : List ℚ :=
  match n with
  | 0 => []
  | 1 => [start]
  | Nat.succ (Nat.succ m) =>
      (List.range (m + 2)).map
        fun k : ℕ => start + (stop - start) * (k : ℚ) / (m + 1)

/-- Association-list view of a Python dict. -/
abbrev Dict := List (String × PyVal)

/-- `key in d` for a dict. -/
def hasKey (k : String) (d : Dict) : Bool := (d.map Prod.fst).contains k

/-- Python dict merge `{**a, **b}`: a key found in `b` takes `b`'s value,
otherwise `a`'s value is kept.  (Represented so that `List.lookup` realises
exactly that resolution; the key ordering of the Python dict is not needed by
any claim.) -/
def dictMerge (a b : Dict) : Dict :=
  a.filter (fun p => ¬ (b.map Prod.fst).contains p.1) ++ b

/-- Observable side effects of `add_layer`, in program order: the two remote
Earth Engine metadata calls, the thumbnail URL computation, the HTTP fetch of
the thumbnail, and the draw onto the axes. -/
inductive Effect where
  | eeRectangleGetInfo   -- ee.Geometry.Rectangle(region).getInfo()
  | eeBoundsGetInfo      -- img_obj.geometry(100).bounds().getInfo()
  | getThumbUrl          -- img_obj.getThumbUrl(args)
  | requestsGet          -- requests.get(url)
  | imshow               -- ax.imshow(...)
deriving DecidableEq, Repr

/-- Data supplied by the external collaborators (Earth Engine, matplotlib's
colormap registry, the HTTP layer).  The embedding is parametric in it. -/
structure Externals where
  /-- `ee.Geometry.Rectangle(region).getInfo()["coordinates"]` (opaque). -/
  rectCoords : PyVal
  /-- First ring of `img_obj.geometry(100).bounds().getInfo()["coordinates"]`. -/
  boundsCoords : List (ℚ × ℚ)
  /-- `cm.get_cmap(name, n)` sampled at a point: an RGBA quadruple. -/
  colormap : String → ℕ → ℚ → ℚ × ℚ × ℚ × ℚ
  /-- `matplotlib.colors.rgb2hex` on an RGB triple. -/
  rgb2hex : ℚ × ℚ × ℚ → String
  /-- `requests.get(url).status_code` for the thumbnail fetch. -/
  thumbStatus : ℕ
  /-- `eval(response.content)["error"]` of a failed thumbnail response. -/
  thumbErrorMsg : String

/-- `cartoee.build_palette(cmap, n=256)`: sample the named colormap at `n`
evenly spaced points of `[0, 1]` and hex-encode the RGB part of each sample. -/
def build_palette (E : Externals) (cmap : String) (n : ℕ := 256) : List String :=
  (linspace 0 1 n).map fun x =>
    E.rgb2hex (match E.colormap cmap n x with | (r, g, b, _) => (r, g, b))

/-- Arguments of `cartoee.add_layer`, with the two type checks the source
performs (`type(img_obj) is ee.image.Image`, `type(ax) in [GeoAxes,
GeoAxesSubplot]`) abstracted to booleans. -/
structure AddLayerArgs where
  imgOk : Bool
  region : Option Quad := none
  dims : PyVal := .vint 1000
  axOk : Bool
  cmap : Option String := none
  visParams : Option Dict := none

/-- `type(dims) in [list, tuple, int]`. -/
def dimsOk : PyVal → Bool
  | .vint _ => true
  | .vlist _ => true
  | .vtuple _ => true
  | _ => false

/-- Truthiness of the optional `cmap` string argument (`if cmap:`). -/
def cmapTruthy : Option String → Bool
  | some s => s ≠ ""
  | none => false

/-- Truthiness of the optional `vis_params` dict (`if vis_params:`). -/
def visTruthy : Option Dict → Bool
  | some vp => ¬ vp.isEmpty
  | none => false

/-- Outcome of one `add_layer` call: the effect trace, the result (`()` or the
raised exception), the argument dict passed to `getThumbUrl` when that point
was reached, and the `vis_params` object as it stands after the call. -/
structure LayerRun where
  effects : List Effect
  result : Except PyError Unit
  thumbArgs : Option Dict
  visParamsAfter : Option Dict
deriving Repr

/-- `add_layer`, from the thumbnail request onward (`url = img_obj.getThumbUrl
(args)`; `requests.get`; status check; decode and `imshow`).  The grayscale
two-channel expansion acts on externally decoded pixel data and is outside the
embedding; drawing is recorded as the `imshow` effect. -/
def add_layer_fetch (E : Externals) (a : AddLayerArgs) (effs : List Effect)
    (args : Dict) : LayerRun :=
  if E.thumbStatus ≠ 200 then
    { effects := effs ++ [.getThumbUrl, .requestsGet]
      result := .error (.httpError E.thumbErrorMsg)
      thumbArgs := some args
      visParamsAfter := a.visParams }
  else
    { effects := effs ++ [.getThumbUrl, .requestsGet, .imshow]
      result := .ok ()
      thumbArgs := some args
      visParamsAfter := a.visParams }

/-- The request dict of `add_layer` before the `vis_params` block:
`{"format": "png"}`, then `args["region"] = map_region` under `if region:` (a
present region tuple is truthy), then `args["dimensions"] = dims` under
`if dims:`. -/
def baseArgs (E : Externals) (a : AddLayerArgs) : Dict :=
  let args0 : Dict := [("format", .vstr "png")]
  let args1 : Dict :=
    if a.region.isSome then args0 ++ [("region", E.rectCoords)] else args0
  if a.dims.truthy then args1 ++ [("dimensions", a.dims)] else args1

/-- `add_layer`, after the region/bounds resolution: the `dims` and `ax` type
checks, the construction of the request dict, the `cmap`/`palette` conflict
check and palette injection, and the merge `{**args, **vis_params}`. -/
def add_layer_postRegion (E : Externals) (a : AddLayerArgs)
    (effs : List Effect) : LayerRun :=
  if dimsOk a.dims = false then
    { effects := effs
      result := .error (.valueError "provided dims not of type list, tuple, or int")
      thumbArgs := none, visParamsAfter := a.visParams }
  else if a.axOk = false then
    { effects := effs
      result := .error (.valueError "provided axes not of type cartopy.mpl.geoaxes.GeoAxes or cartopy.mpl.geoaxes.GeoAxesSubplot")
      thumbArgs := none, visParamsAfter := a.visParams }
  else
    let args2 : Dict := baseArgs E a
    if visTruthy a.visParams then
      let vp : Dict := a.visParams.getD []
      if cmapTruthy a.cmap ∧ hasKey "palette" vp then
        { effects := effs
          result := .error (.keyError "cannot provide `palette` in vis_params if `cmap` is specified")
          thumbArgs := none, visParamsAfter := a.visParams }
      else
        let args3 : Dict :=
          if cmapTruthy a.cmap then
            args2 ++ [("palette",
              .vstr (String.intercalate "," (build_palette E (a.cmap.getD ""))))]
          else args2
        add_layer_fetch E a effs (dictMerge args3 vp)
    else
      add_layer_fetch E a effs args2

/-- `cartoee.add_layer(ax, img_obj, dims, region, cmap, vis_params)`.
Program order as in the source: image-type check; region resolution (a remote
`getInfo` either way — `ee.Geometry.Rectangle(region)` when `region` is given,
else the image's own `geometry(100).bounds()`, whose first ring is unzipped
into mins/maxes); `dims` check; `ax` check; request construction; thumbnail
fetch; decode and draw. -/
def add_layer (E : Externals) (a : AddLayerArgs) : LayerRun :=
  if a.imgOk = false then
    { effects := []
      result := .error (.valueError "provided `img_obj` is not of type ee.Image")
      thumbArgs := none, visParamsAfter := a.visParams }
  else
    match a.region with
    | some r =>
        let _view : Box := ⟨r.q0, r.q2, r.q1, r.q3⟩  -- feeds only the draw call
        add_layer_postRegion E a [.eeRectangleGetInfo]
    | none =>
        match E.boundsCoords with
        | [] =>
            -- `x, y = list(zip(*map_region[0]))` with an empty ring raises
            { effects := [.eeBoundsGetInfo]
              result := .error (.valueError "not enough values to unpack")
              thumbArgs := none, visParamsAfter := a.visParams }
        | c :: cs =>
            let xsl := (c :: cs).map Prod.fst
            let ysl := (c :: cs).map Prod.snd
            let _view : Box :=  -- [min(x), max(x), min(y), max(y)], draw only
              ⟨xsl.foldl min c.1, xsl.foldl max c.1,
               ysl.foldl min c.2, ysl.foldl max c.2⟩
            add_layer_postRegion E a [.eeBoundsGetInfo]

/-- The drawing sub-region the colorbar is rendered into: either the rectangle
`ax.figure.add_axes(posOpts[loc])` derived from `loc`, or the caller's own
`cax` object taken from the keyword arguments. -/
inductive CaxVal where
  | fromLoc (rect : List ℚ)
  | fromKwarg (v : PyVal)
deriving DecidableEq, Repr

/-- The colormap/norm pair handed to `ColorbarBase`:
`listed` = `ListedColormap(hexcodes)` with `BoundaryNorm` (palette, discrete);
`segmented` = `LinearSegmentedColormap.from_list("custom", hexcodes, N=256)`
with `Normalize(vmin, vmax)` (palette, continuous);
`named` = `plt.get_cmap(cmap)` with `Normalize(vmin, vmax)`. -/
inductive ColorSource where
  | listed (hexcodes : List String)
  | segmented (hexcodes : List String)
  | named (s : String)
deriving DecidableEq, Repr

/-- The fixed normalized position/size rectangles `posOpts[loc]`. -/
def posOpts : String → List ℚ
  | "left" => [1/100, 1/4, 1/50, 1/2]
  | "right" => [22/25, 1/4, 1/50, 1/2]
  | "bottom" => [1/4, 3/20, 1/2, 1/50]
  | _ => [1/4, 22/25, 1/2, 1/50]  -- "top" (only the four keys are ever used)

/-- Arguments of `cartoee.add_colorbar`; the axes type check is abstracted to
a boolean, `vis_params` is the caller's dict. -/
structure ColorbarArgs where
  axOk : Bool
  visParams : Dict
  loc : PyVal := .vnone
  cmap : Option String := some "gray"
  discrete : Bool := false
  label : Option String := none
  kwargs : Dict := []

/-- The data of the final `mpl.colorbar.ColorbarBase(cax, norm=norm,
alpha=alpha, cmap=cmap, **kwargs)` call plus the subsequent `set_label`. -/
structure ColorbarCall where
  cax : CaxVal
  vmin : PyVal
  vmax : PyVal
  alpha : PyVal
  source : ColorSource
  kwargsPassed : Dict
  labelArg : Option PyVal
deriving DecidableEq, Repr

/-- Outcome of one `add_colorbar` call: the result (the colorbar call data, or
the raised exception), the resolved drawing sub-region when the placement step
completed, the number of `warnings.warn` emissions, and `vis_params` as it
stands after the call. -/
structure ColorbarRun where
  result : Except PyError ColorbarCall
  caxResolved : Option CaxVal
  warnings : ℕ
  visParamsAfter : Dict
deriving Repr

/-- Lines 255-284: resolve the drawing sub-region.  A truthy `loc` must be one
of the four position strings (else `ValueError`); otherwise a `cax` keyword is
popped from `kwargs`; otherwise `ValueError`.  Returns the sub-region and the
remaining keyword dict. -/
def placementResolve (a : ColorbarArgs) : Except PyError (CaxVal × Dict) :=
  if a.loc.truthy then
    match a.loc with
    | .vstr s =>
        if s = "left" ∨ s = "right" ∨ s = "bottom" ∨ s = "top" then
          .ok (.fromLoc (posOpts s), a.kwargs)
        else
          .error (.valueError "provided loc not of type str. options are \x22left\x22, \x22top\x22, \x22right\x22, or \x22bottom\x22")
    | _ =>
        .error (.valueError "provided loc not of type str. options are \x22left\x22, \x22top\x22, \x22right\x22, or \x22bottom\x22")
  else if hasKey "cax" a.kwargs then
    .ok (.fromKwarg ((List.lookup "cax" a.kwargs).getD .vnone),
         a.kwargs.filter (fun p => p.1 ≠ "cax"))
  else
    .error (.valueError "loc or cax keywords must be specified")

/-- Lines 288-300 (and 302-309 for opacity): read `vis_params[key]`, require it
scalar, default when absent. -/
def resolveScalar (key : String) (vp : Dict) (dflt : PyVal) (msg : String) :
    Except PyError PyVal :=
  match List.lookup key vp with
  | some v => if v.isScalar then .ok v else .error (.valueError msg)
  | none => .ok dflt

/-- Lines 302-309: `alpha` from `vis_params["opacity"]` (scalar-checked), else
from the `alpha` keyword argument (not checked), else `1`. -/
def resolveAlpha (vp kwargs : Dict) : Except PyError PyVal :=
  match List.lookup "opacity" vp with
  | some v =>
      if v.isScalar then .ok v
      else .error (.valueError "provided opacity value of not type scalar")
  | none =>
      match List.lookup "alpha" kwargs with
      | some v => .ok v
      | none => .ok (.vint 1)

/-- Lines 311-353: resolve the colormap/norm.  The `palette` key wins over the
`cmap` argument; `discrete` selects `ListedColormap`+`BoundaryNorm` only when a
palette is present; `cmap` alone gives the named colormap.  With neither,
`ValueError`.  A non-string palette fails at `.split` (`AttributeError`); an
empty hex entry fails at `i[0]` (`IndexError`).  Returns the warning count of
the two `discrete`-without-palette advisories (lines 311-317 warn whenever
`cmap is not None and discrete`, even when a palette is also present). -/
def resolveColor (a : ColorbarArgs) : ℕ × Except PyError ColorSource :=
  let w1 : ℕ := if a.cmap.isSome ∧ a.discrete then 1 else 0
  match List.lookup "palette" a.visParams with
  | some (.vstr s) =>
      let hexcodes := s.splitOn ","
      if hexcodes.contains "" then (w1, .error .indexError)
      else
        let hexcodes := hexcodes.map fun i =>
          if i.startsWith "#" then i else "#" ++ i
        if a.discrete then (w1, .ok (.listed hexcodes))
        else (w1, .ok (.segmented hexcodes))
  | some _ => (w1, .error .attributeError)
  | none =>
      match a.cmap with
      | some c =>
          let w2 : ℕ := if a.discrete then 1 else 0
          (w1 + w2, .ok (.named c))
      | none =>
          (w1, .error (.valueError "cmap keyword or \x22palette\x22 key in visParams must be provided"))

/-- `add_colorbar` after placement resolution.  `if vis_params:` guards the
whole resolution block, so an empty dict leaves `norm` unassigned and the
`ColorbarBase` call at line 355 raises `UnboundLocalError`. -/
def add_colorbar_post (a : ColorbarArgs) (cax : CaxVal) (kwargs1 : Dict) :
    ColorbarRun :=
  if a.visParams.isEmpty then
    { result := .error .unboundLocalError
      caxResolved := some cax, warnings := 0, visParamsAfter := a.visParams }
  else
    match resolveScalar "min" a.visParams (.vint 0)
        "provided min value not of scalar type" with
    | .error e =>
        { result := .error e
          caxResolved := some cax, warnings := 0, visParamsAfter := a.visParams }
    | .ok vmin =>
    match resolveScalar "max" a.visParams (.vint 1)
        "provided max value not of scalar type" with
    | .error e =>
        { result := .error e
          caxResolved := some cax, warnings := 0, visParamsAfter := a.visParams }
    | .ok vmax =>
    match resolveAlpha a.visParams kwargs1 with
    | .error e =>
        { result := .error e
          caxResolved := some cax, warnings := 0, visParamsAfter := a.visParams }
    | .ok alpha =>
    match resolveColor a with
    | (w, .error e) =>
        { result := .error e
          caxResolved := some cax, warnings := w, visParamsAfter := a.visParams }
    | (w, .ok src) =>
        let labelArg : Option PyVal :=
          match List.lookup "bands" a.visParams with
          | some b => some b
          | none => a.label.map .vstr
        { result := .ok
            { cax := cax, vmin := vmin, vmax := vmax, alpha := alpha
              source := src, kwargsPassed := kwargs1, labelArg := labelArg }
          caxResolved := some cax, warnings := w, visParamsAfter := a.visParams }

/-- `cartoee.add_colorbar(ax, vis_params, loc, cmap, discrete, label,
**kwargs)`: axes type check, placement resolution, then the
`vis_params`-guarded parameter/colormap resolution and the `ColorbarBase`
call. -/
def add_colorbar (a : ColorbarArgs) : ColorbarRun :=
  if a.axOk = false then
    { result := .error (.valueError "provided axes not of type cartopy.mpl.geoaxes.GeoAxes or cartopy.mpl.geoaxes.GeoAxesSubplot")
      caxResolved := none, warnings := 0, visParamsAfter := a.visParams }
  else
    match placementResolve a with
    | .error e =>
        { result := .error e
          caxResolved := none, warnings := 0, visParamsAfter := a.visParams }
    | .ok (cax, kwargs1) => add_colorbar_post a cax kwargs1

/-- A scalar-or-pair argument (`isinstance(x, Iterable)` distinguishes the two;
a pair is read positionally as `x[0]` / `x[1]`). -/
inductive SP (α : Type) where
  | scalar (a : α)
  | pair (x y : α)
deriving DecidableEq, Repr

/-- Tick sets computed by `add_gridlines`: the full gridline coordinates
`xmain` / `ymain`, and their restrictions `xin` / `yin` to the original view
extent, which become the visible axis ticks. -/
structure GridRun where
  xmain : List ℚ
  ymain : List ℚ
  xin : List ℚ
  yin : List ℚ
deriving DecidableEq, Repr

/-- The x-axis branch of `add_gridlines` (lines 443-467): explicit `xs` win;
else `interval` (buffering the running extent in place when `buffer_out`);
else `n_ticks`; else `ValueError`.  Returns the ticks and the running extent
(which the y-axis branch continues from). -/
def gridXBranch (extent : Box) (interval : Option (SP ℚ))
    (n_ticks : Option (SP ℕ)) (xs : Option (List ℚ)) (buffer_out : Bool) :
    Except PyError (List ℚ × Box) :=
  match xs with
  | some l => .ok (l, extent)
  | none =>
    match interval with
    | some iv =>
        let xspace := match iv with | .scalar q => q | .pair x _ => x
        let extent := if buffer_out then _buffer_box extent xspace else extent
        .ok (arange extent.xmin (extent.xmax + xspace) xspace, extent)
    | none =>
      match n_ticks with
      | some nt =>
          let n_x := match nt with | .scalar n => n | .pair nx _ => nx
          .ok (linspace extent.xmin extent.xmax n_x, extent)
      | none =>
          .error (.valueError "one of variables interval, n_ticks, or xs must be defined. If you would like default gridlines, please use ax.gridlines()")

/-- The y-axis branch of `add_gridlines` (lines 469-494), continuing from the
extent the x branch left behind (so a second `_buffer_box` application lands on
the already-buffered extent). -/
def gridYBranch (extent : Box) (interval : Option (SP ℚ))
    (n_ticks : Option (SP ℕ)) (ys : Option (List ℚ)) (buffer_out : Bool) :
    Except PyError (List ℚ × Box) :=
  match ys with
  | some l => .ok (l, extent)
  | none =>
    match interval with
    | some iv =>
        let yspace := match iv with | .scalar q => q | .pair _ y => y
        let extent := if buffer_out then _buffer_box extent yspace else extent
        .ok (arange extent.ymin (extent.ymax + yspace) yspace, extent)
    | none =>
      match n_ticks with
      | some nt =>
          let n_y := match nt with | .scalar n => n | .pair _ ny => ny
          .ok (linspace extent.ymin extent.ymax n_y, extent)
      | none =>
          .error (.valueError "one of variables interval, n_ticks, or ys must be defined. If you would like default gridlines, please use ax.gridlines()")

/-- `cartoee.add_gridlines(ax, interval, n_ticks, xs, ys, buffer_out, ...)`:
read the view extent, run the two axis branches sequentially over the shared
`extent` variable, draw gridlines at `xmain`/`ymain`, and keep for the tick
labels only the coordinates inside the original view extent. -/
def add_gridlines (view_extent : Box) (interval : Option (SP ℚ))
    (n_ticks : Option (SP ℕ)) (xs ys : Option (List ℚ))
    (buffer_out : Bool := true) : Except PyError GridRun :=
  match gridXBranch view_extent interval n_ticks xs buffer_out with
  | .error e => .error e
  | .ok (xmain, extent1) =>
    match gridYBranch extent1 interval n_ticks ys buffer_out with
    | .error e => .error e
    | .ok (ymain, _) =>
        .ok { xmain := xmain, ymain := ymain
              xin := xmain.filter fun v =>
                view_extent.xmin ≤ v ∧ v ≤ view_extent.xmax
              yin := ymain.filter fun v =>
                view_extent.ymin ≤ v ∧ v ≤ view_extent.ymax }

/-- `cartoee.pad_view(ax, factor=0.05)`: expand each axis of the view extent
outward by `span * factor` on both sides. -/
def pad_view (view_extent : Box) (factor : SP ℚ) : Box :=
  let xfactor := match factor with | .scalar q => q | .pair x _ => x
  let yfactor := match factor with | .scalar q => q | .pair _ y => y
  let x_diff := view_extent.xmax - view_extent.xmin
  let y_diff := view_extent.ymax - view_extent.ymin
  { xmin := view_extent.xmin - x_diff * xfactor
    xmax := view_extent.xmax + x_diff * xfactor
    ymin := view_extent.ymin - y_diff * yfactor
    ymax := view_extent.ymax + y_diff * yfactor }

/-! ### Arithmetic lemmas about `pymod` and `_buffer_box` -/

lemma buffer_lower_eq (a s : ℚ) :
    (if pymod a s ≠ 0 then a - pymod a s else a) = s * (⌊a / s⌋ : ℤ) := by
  by_cases h : pymod a s = 0
  · rw [if_neg (by simpa using h)]
    have h' : a - s * (⌊a / s⌋ : ℤ) = 0 := h
    linarith
  · rw [if_pos h]
    unfold pymod
    ring

lemma buffer_upper_of_ne {a s : ℚ} (h : pymod a s ≠ 0) :
    (if pymod a s ≠ 0 then a + (s - pymod a s) else a) = s * ((⌊a / s⌋ : ℤ) + 1) := by
  rw [if_pos h]
  unfold pymod
  ring

lemma buffer_upper_of_eq {a s : ℚ} (h : pymod a s = 0) :
    (if pymod a s ≠ 0 then a + (s - pymod a s) else a) = s * (⌊a / s⌋ : ℤ) := by
  rw [if_neg (by simpa using h)]
  have h' : a - s * (⌊a / s⌋ : ℤ) = 0 := h
  linarith

lemma pymod_nonneg (a s : ℚ) (hs : 0 < s) : 0 ≤ pymod a s := by
  unfold pymod
  have h1 : s * (⌊a / s⌋ : ℤ) ≤ s * (a / s) := by
    apply mul_le_mul_of_nonneg_left (Int.floor_le _) hs.le
  have h2 : s * (a / s) = a := by
    rw [mul_comm, div_mul_cancel₀ _ hs.ne']
  linarith

lemma pymod_lt (a s : ℚ) (hs : 0 < s) : pymod a s < s := by
  unfold pymod
  have h1 : a / s < (⌊a / s⌋ : ℤ) + 1 := Int.lt_floor_add_one _
  have h2 : a < s * ((⌊a / s⌋ : ℤ) + 1) := by
    calc a = s * (a / s) := by rw [mul_comm, div_mul_cancel₀ _ hs.ne']
    _ < s * ((⌊a / s⌋ : ℤ) + 1) := by
        exact mul_lt_mul_of_pos_left h1 hs
  linarith

lemma pymod_mul_int (s : ℚ) (k : ℤ) (hs : s ≠ 0) : pymod (s * k) s = 0 := by
  unfold pymod
  rw [mul_comm s (k : ℚ), mul_div_assoc, div_self hs, mul_one, Int.floor_intCast]
  ring

lemma pymod_eq_zero_of_mult {a s : ℚ} (hs : s ≠ 0) (h : ∃ k : ℤ, a = k * s) :
    pymod a s = 0 := by
  obtain ⟨k, rfl⟩ := h
  rw [mul_comm]
  exact pymod_mul_int s k hs

/-- Each bound of `_buffer_box` is `s` times an integer (for `s ≠ 0`),
uniformly in all four positions. -/
lemma buffer_bound_mult (a s : ℚ) :
    (∃ j : ℤ, (if pymod a s ≠ 0 then a - pymod a s else a) = s * j) ∧
    (∃ j : ℤ, (if pymod a s ≠ 0 then a + (s - pymod a s) else a) = s * j) := by
  constructor
  · exact ⟨⌊a / s⌋, buffer_lower_eq a s⟩
  · by_cases h : pymod a s = 0
    · exact ⟨⌊a / s⌋, buffer_upper_of_eq h⟩
    · refine ⟨⌊a / s⌋ + 1, ?_⟩
      rw [buffer_upper_of_ne h]
      push_cast
      ring

lemma buffer_box_bounds (b : Box) (s : ℚ) :
    (∃ j : ℤ, (_buffer_box b s).xmin = s * j) ∧
    (∃ j : ℤ, (_buffer_box b s).xmax = s * j) ∧
    (∃ j : ℤ, (_buffer_box b s).ymin = s * j) ∧
    (∃ j : ℤ, (_buffer_box b s).ymax = s * j) :=
  ⟨(buffer_bound_mult b.xmin s).1, (buffer_bound_mult b.xmax s).2,
   (buffer_bound_mult b.ymin s).1, (buffer_bound_mult b.ymax s).2⟩

/-- `_buffer_box` with positive interval moves minima down (by less than one
interval) and maxima up (by less than one interval). -/
lemma buffer_box_contains (b : Box) (s : ℚ) (hs : 0 < s) :
    (_buffer_box b s).xmin ≤ b.xmin ∧ b.xmin - s < (_buffer_box b s).xmin ∧
    b.xmax ≤ (_buffer_box b s).xmax ∧ (_buffer_box b s).xmax < b.xmax + s ∧
    (_buffer_box b s).ymin ≤ b.ymin ∧ b.ymin - s < (_buffer_box b s).ymin ∧
    b.ymax ≤ (_buffer_box b s).ymax ∧ (_buffer_box b s).ymax < b.ymax + s := by
  have lower : ∀ a : ℚ, (if pymod a s ≠ 0 then a - pymod a s else a) ≤ a ∧
      a - s < (if pymod a s ≠ 0 then a - pymod a s else a) := by
    intro a
    by_cases h : pymod a s = 0
    · rw [if_neg (by simpa using h)]
      exact ⟨le_refl _, by linarith⟩
    · rw [if_pos h]
      have h1 := pymod_nonneg a s hs
      have h2 := pymod_lt a s hs
      exact ⟨by linarith, by linarith⟩
  have upper : ∀ a : ℚ, a ≤ (if pymod a s ≠ 0 then a + (s - pymod a s) else a) ∧
      (if pymod a s ≠ 0 then a + (s - pymod a s) else a) < a + s := by
    intro a
    by_cases h : pymod a s = 0
    · rw [if_neg (by simpa using h)]
      exact ⟨le_refl _, by linarith⟩
    · rw [if_pos h]
      have h1 := pymod_nonneg a s hs
      have h2 := pymod_lt a s hs
      have h1' : 0 < pymod a s := lt_of_le_of_ne h1 (Ne.symm h)
      exact ⟨by linarith, by linarith⟩
  exact ⟨(lower b.xmin).1, (lower b.xmin).2, (upper b.xmax).1, (upper b.xmax).2,
    (lower b.ymin).1, (lower b.ymin).2, (upper b.ymax).1, (upper b.ymax).2⟩

/-- A bound that is already an exact multiple of the interval is returned
unchanged by the `_buffer_box` branch arithmetic. -/
lemma buffer_unchanged_of_mult {a s : ℚ} (hs : s ≠ 0) (h : ∃ k : ℤ, a = k * s) :
    (if pymod a s ≠ 0 then a - pymod a s else a) = a ∧
    (if pymod a s ≠ 0 then a + (s - pymod a s) else a) = a := by
  rw [if_neg (by simpa using pymod_eq_zero_of_mult hs h),
    if_neg (by simpa using pymod_eq_zero_of_mult hs h)]
  exact ⟨rfl, rfl⟩

/-- A box whose bounds all have zero remainder is a fixed point of
`_buffer_box`. -/
lemma buffer_box_fixed (B : Box) (s : ℚ) (h1 : pymod B.xmin s = 0)
    (h2 : pymod B.xmax s = 0) (h3 : pymod B.ymin s = 0)
    (h4 : pymod B.ymax s = 0) : _buffer_box B s = B := by
  unfold _buffer_box
  rw [if_neg (by simpa using h1), if_neg (by simpa using h2),
    if_neg (by simpa using h3), if_neg (by simpa using h4)]

/-! ### C6 — `bbox_to_extent` -/

/-- C6 (counterexample): the claim says applying `bbox_to_extent` twice does
not return the original order; at `(1, 2, 3, 4)` the double application
returns exactly the original tuple. -/
theorem bbox_to_extent_twice_counterexample :
    bbox_to_extent (bbox_to_extent ⟨1, 2, 3, 4⟩) = (⟨1, 2, 3, 4⟩ : Quad) := by
  rfl

/-- C6 (amended): `bbox_to_extent` maps every `(w, s, e, n)` to `(w, e, s, n)`
— a fixed positional remap with no validation — and it is an involution: it
swaps positions 1 and 2, so applying it twice returns the original tuple. -/
theorem bbox_to_extent_swap_and_involution :
    ∀ w s e n : ℚ, bbox_to_extent ⟨w, s, e, n⟩ = ⟨w, e, s, n⟩ ∧
      bbox_to_extent (bbox_to_extent ⟨w, s, e, n⟩) = ⟨w, s, e, n⟩ := by
  intro w s e n
  exact ⟨rfl, rfl⟩

/-! ### C7 / C8 — `_buffer_box` -/

/-- C7: for every box and positive interval, each output bound of
`_buffer_box` is an integer multiple of the interval, minima are rounded down
and maxima rounded up (each by strictly less than one interval, i.e. to the
nearest such multiple), so the output box contains the input box; bounds that
are exact multiples of the interval are returned unchanged.  In particular
`_buffer_box((1.2, 8.7, -3.1, 4.4), 2) = (0, 10, -4, 6)`. -/
theorem buffer_box_spec :
    (∀ (b : Box) (i : ℚ), 0 < i →
      ((∃ k : ℤ, (_buffer_box b i).xmin = k * i) ∧
       (∃ k : ℤ, (_buffer_box b i).xmax = k * i) ∧
       (∃ k : ℤ, (_buffer_box b i).ymin = k * i) ∧
       (∃ k : ℤ, (_buffer_box b i).ymax = k * i)) ∧
      ((_buffer_box b i).xmin ≤ b.xmin ∧ b.xmin - i < (_buffer_box b i).xmin ∧
       b.xmax ≤ (_buffer_box b i).xmax ∧ (_buffer_box b i).xmax < b.xmax + i ∧
       (_buffer_box b i).ymin ≤ b.ymin ∧ b.ymin - i < (_buffer_box b i).ymin ∧
       b.ymax ≤ (_buffer_box b i).ymax ∧ (_buffer_box b i).ymax < b.ymax + i) ∧
      (((∃ k : ℤ, b.xmin = k * i) → (_buffer_box b i).xmin = b.xmin) ∧
       ((∃ k : ℤ, b.xmax = k * i) → (_buffer_box b i).xmax = b.xmax) ∧
       ((∃ k : ℤ, b.ymin = k * i) → (_buffer_box b i).ymin = b.ymin) ∧
       ((∃ k : ℤ, b.ymax = k * i) → (_buffer_box b i).ymax = b.ymax))) ∧
    _buffer_box ⟨6/5, 87/10, -31/10, 22/5⟩ 2 = ⟨0, 10, -4, 6⟩ := by
  constructor
  · intro b i hi
    obtain ⟨⟨j1, e1⟩, ⟨j2, e2⟩, ⟨j3, e3⟩, ⟨j4, e4⟩⟩ := buffer_box_bounds b i
    refine ⟨⟨⟨j1, by linarith [e1]⟩, ⟨j2, by linarith [e2]⟩,
      ⟨j3, by linarith [e3]⟩, ⟨j4, by linarith [e4]⟩⟩,
      buffer_box_contains b i hi, ?_, ?_, ?_, ?_⟩
    · intro h
      exact (buffer_unchanged_of_mult hi.ne' h).1
    · intro h
      exact (buffer_unchanged_of_mult hi.ne' h).2
    · intro h
      exact (buffer_unchanged_of_mult hi.ne' h).1
    · intro h
      exact (buffer_unchanged_of_mult hi.ne' h).2
  · simp only [_buffer_box, pymod, Box.mk.injEq]
    norm_num [Int.floor_eq_iff]

/-- C7 (witness): the general statement applied at the concrete box of the
claim's example, with the positivity hypothesis discharged. -/
theorem buffer_box_spec_witness :
    (0 : ℚ) < 2 ∧
    ((∃ k : ℤ, (_buffer_box ⟨6/5, 87/10, -31/10, 22/5⟩ 2).xmin = k * 2) ∧
     (∃ k : ℤ, (_buffer_box ⟨6/5, 87/10, -31/10, 22/5⟩ 2).xmax = k * 2) ∧
     (∃ k : ℤ, (_buffer_box ⟨6/5, 87/10, -31/10, 22/5⟩ 2).ymin = k * 2) ∧
     (∃ k : ℤ, (_buffer_box ⟨6/5, 87/10, -31/10, 22/5⟩ 2).ymax = k * 2)) :=
  ⟨by norm_num, ((buffer_box_spec.1 ⟨6/5, 87/10, -31/10, 22/5⟩ 2 (by norm_num)).1 : _)⟩

/-- C8: `_buffer_box` is idempotent — re-buffering an already-buffered box
with the same (nonzero) interval returns it unchanged. -/
theorem buffer_box_idempotent :
    ∀ (b : Box) (i : ℚ), i ≠ 0 →
      _buffer_box (_buffer_box b i) i = _buffer_box b i := by
  intro b i hi
  obtain ⟨⟨j1, e1⟩, ⟨j2, e2⟩, ⟨j3, e3⟩, ⟨j4, e4⟩⟩ := buffer_box_bounds b i
  apply buffer_box_fixed
  · rw [e1]; exact pymod_mul_int i j1 hi
  · rw [e2]; exact pymod_mul_int i j2 hi
  · rw [e3]; exact pymod_mul_int i j3 hi
  · rw [e4]; exact pymod_mul_int i j4 hi

/-- C8 (witness): idempotence applied at the concrete example box with
interval `2`. -/
theorem buffer_box_idempotent_witness :
    (2 : ℚ) ≠ 0 ∧
    _buffer_box (_buffer_box ⟨6/5, 87/10, -31/10, 22/5⟩ 2) 2 =
      _buffer_box ⟨6/5, 87/10, -31/10, 22/5⟩ 2 :=
  ⟨by norm_num, buffer_box_idempotent ⟨6/5, 87/10, -31/10, 22/5⟩ 2 (by norm_num)⟩

/-! ### Structure of `arange` runs over buffered extents -/

lemma arange_succ_eq_map (a s : ℚ) (hs : s ≠ 0) (m : ℕ) :
    arange a (a + m * s + s) s
      = (List.range (m + 1)).map (fun k : ℕ => a + (k : ℚ) * s) := by
  unfold arange
  rw [if_neg hs]
  have h1 : (a + m * s + s - a) / s = ((m + 1 : ℕ) : ℚ) := by
    field_simp
    ring
  rw [h1, Int.ceil_natCast, Int.toNat_natCast]

lemma arange_head (a s : ℚ) (hs : s ≠ 0) (m : ℕ) :
    (arange a (a + m * s + s) s).head? = some a := by
  rw [arange_succ_eq_map a s hs m, List.range_succ_eq_map]
  simp

lemma arange_last (a s : ℚ) (hs : s ≠ 0) (m : ℕ) :
    (arange a (a + m * s + s) s).getLast? = some (a + m * s) := by
  rw [arange_succ_eq_map a s hs m, List.range_succ, List.map_append]
  simp

lemma arange_chain (a s : ℚ) (hs : s ≠ 0) (m : ℕ) :
    List.Chain' (fun p q => q = p + s) (arange a (a + m * s + s) s) := by
  rw [arange_succ_eq_map a s hs m, List.chain'_map, List.chain'_range_succ]
  intro i _
  push_cast
  ring

/-- Ticks stepped over an interval whose end points are multiples of the step:
the `arange` run starts at the lower bound, ends exactly at the upper bound,
and advances by the step. -/
lemma arange_ticks_struct (lo hi s : ℚ) (hs : 0 < s)
    (hj : ∃ j : ℤ, lo = s * j) (hk : ∃ k : ℤ, hi = s * k) (hle : lo ≤ hi) :
    (arange lo (hi + s) s).head? = some lo ∧
    (arange lo (hi + s) s).getLast? = some hi ∧
    List.Chain' (fun p q => q = p + s) (arange lo (hi + s) s) := by
  obtain ⟨j, rfl⟩ := hj
  obtain ⟨k, rfl⟩ := hk
  have hjk : j ≤ k := by
    have h1 : (j : ℚ) ≤ (k : ℚ) := le_of_mul_le_mul_left hle hs
    exact_mod_cast h1
  have hkeq : s * (k : ℚ) = s * (j : ℚ) + ((k - j).toNat : ℕ) * s := by
    have h2 : (((k - j).toNat : ℕ) : ℚ) = (k : ℚ) - (j : ℚ) := by
      have h3 : ((k - j).toNat : ℤ) = k - j := Int.toNat_of_nonneg (by omega)
      exact_mod_cast congrArg (fun z : ℤ => (z : ℚ)) h3
    rw [h2]
    ring
  rw [hkeq]
  exact ⟨arange_head _ s hs.ne' _, arange_last _ s hs.ne' _, arange_chain _ s hs.ne' _⟩

/-! ### C3 — `add_gridlines` tick generation -/

/-- C3 (counterexample): with `interval=[2,3]`, `buffer_out=True` and view
extent `(0,4,0,2.5)`, the code generates y ticks `[0,3,6]`: the y bounds are
buffered starting from the extent already buffered by the x interval, not from
the view extent.  Buffering the view extent by the y axis's own interval `3`
(as the claim states) would give the ticks `[0,3]`. -/
theorem add_gridlines_axis_buffer_counterexample :
    (add_gridlines ⟨0, 4, 0, 5/2⟩ (some (.pair 2 3)) none none none true).map
        (fun g => g.ymain) = .ok [0, 3, 6] ∧
    arange (_buffer_box ⟨0, 4, 0, 5/2⟩ 3).ymin
        ((_buffer_box ⟨0, 4, 0, 5/2⟩ 3).ymax + 3) 3 = [0, 3] ∧
    ([0, 3, 6] : List ℚ) ≠ [0, 3] := by
  have hb1 : _buffer_box ⟨0, 4, 0, 5/2⟩ 2 = ⟨0, 4, 0, 4⟩ := by
    simp only [_buffer_box, pymod, Box.mk.injEq]
    norm_num [Int.floor_eq_iff]
  have hb2 : _buffer_box ⟨0, 4, 0, 4⟩ 3 = ⟨0, 6, 0, 6⟩ := by
    simp only [_buffer_box, pymod, Box.mk.injEq]
    norm_num [Int.floor_eq_iff]
  have hb3 : _buffer_box ⟨0, 4, 0, 5/2⟩ 3 = ⟨0, 6, 0, 3⟩ := by
    simp only [_buffer_box, pymod, Box.mk.injEq]
    norm_num [Int.floor_eq_iff]
  have ha1 : arange (0 : ℚ) (6 + 3) 3 = [0, 3, 6] := by
    have h := arange_succ_eq_map 0 3 (by norm_num) 2
    have he : (0 : ℚ) + (2 : ℕ) * 3 + 3 = 6 + 3 := by push_cast; ring
    rw [he] at h
    rw [h, show List.range 3 = [0, 1, 2] from rfl]
    norm_num
  have ha2 : arange (0 : ℚ) (3 + 3) 3 = [0, 3] := by
    have h := arange_succ_eq_map 0 3 (by norm_num) 1
    have he : (0 : ℚ) + (1 : ℕ) * 3 + 3 = 3 + 3 := by push_cast; ring
    rw [he] at h
    rw [h, show List.range 2 = [0, 1] from rfl]
    norm_num
  refine ⟨?_, ?_, by norm_num⟩
  · show Except.map _ (add_gridlines _ _ _ _ _ _) = _
    simp only [add_gridlines, gridXBranch, gridYBranch, if_pos]
    rw [hb1, hb2]
    simp only [Except.map]
    rw [ha1]
  · rw [hb3]
    show arange (0 : ℚ) (3 + 3) 3 = [0, 3]
    exact ha2

/-- C3 (amended): tick generation per axis.  With explicit `n_ticks`, that
many evenly spaced points span the unbuffered original extent (5 ticks over
`(0,10,0,10)` gives `0, 2.5, 5, 7.5, 10` each axis, endpoints included); with
`interval=2` and `buffer_out=False` over `(0,10,0,10)` the ticks are exactly
`0,2,4,6,8,10` each axis.  With an `[x_interval, y_interval]` pair and
`buffer_out=True`, the x ticks run from the x-buffered extent's minimum to its
maximum inclusive stepped by the x interval, while the y ticks are generated
from the extent buffered *cumulatively* — first by the x interval, then by the
y interval — running from that extent's minimum to its maximum inclusive,
stepped by the y interval. -/
theorem add_gridlines_ticks :
    (∀ (ve : Box) (sx sy : ℚ), 0 < sx → 0 < sy →
      ve.xmin ≤ ve.xmax → ve.ymin ≤ ve.ymax →
      ∃ g, add_gridlines ve (some (.pair sx sy)) none none none true = .ok g ∧
        g.xmain.head? = some ((_buffer_box ve sx).xmin) ∧
        g.xmain.getLast? = some ((_buffer_box ve sx).xmax) ∧
        List.Chain' (fun p q => q = p + sx) g.xmain ∧
        g.ymain.head? = some ((_buffer_box (_buffer_box ve sx) sy).ymin) ∧
        g.ymain.getLast? = some ((_buffer_box (_buffer_box ve sx) sy).ymax) ∧
        List.Chain' (fun p q => q = p + sy) g.ymain) ∧
    add_gridlines ⟨0, 10, 0, 10⟩ (some (.scalar 2)) none none none false
      = .ok ⟨[0, 2, 4, 6, 8, 10], [0, 2, 4, 6, 8, 10],
             [0, 2, 4, 6, 8, 10], [0, 2, 4, 6, 8, 10]⟩ ∧
    add_gridlines ⟨0, 10, 0, 10⟩ none (some (.scalar 5)) none none true
      = .ok ⟨[0, 5/2, 5, 15/2, 10], [0, 5/2, 5, 15/2, 10],
             [0, 5/2, 5, 15/2, 10], [0, 5/2, 5, 15/2, 10]⟩ ∧
    ([0, 5/2, 5, 15/2, 10] : List ℚ).length = 5 ∧
    ([0, 5/2, 5, 15/2, 10] : List ℚ).head? = some 0 ∧
    ([0, 5/2, 5, 15/2, 10] : List ℚ).getLast? = some 10 := by
  refine ⟨?_, ?_, ?_, by norm_num, rfl, rfl⟩
  · intro ve sx sy hsx hsy hx hy
    refine ⟨_, rfl, ?_⟩
    obtain ⟨hx1, hx2, hy1, hy2⟩ := buffer_box_bounds ve sx
    obtain ⟨c1, _, c3, _, c5, _, c7, _⟩ := buffer_box_contains ve sx hsx
    obtain ⟨hx1', hx2', hy1', hy2'⟩ := buffer_box_bounds (_buffer_box ve sx) sy
    obtain ⟨d1, _, d3, _, d5, _, d7, _⟩ :=
      buffer_box_contains (_buffer_box ve sx) sy hsy
    have hlex : (_buffer_box ve sx).xmin ≤ (_buffer_box ve sx).xmax := by
      linarith
    have hley : (_buffer_box (_buffer_box ve sx) sy).ymin
        ≤ (_buffer_box (_buffer_box ve sx) sy).ymax := by
      linarith
    obtain ⟨e1, e2, e3⟩ := arange_ticks_struct (_buffer_box ve sx).xmin
      (_buffer_box ve sx).xmax sx hsx hx1 hx2 hlex
    obtain ⟨f1, f2, f3⟩ := arange_ticks_struct
      (_buffer_box (_buffer_box ve sx) sy).ymin
      (_buffer_box (_buffer_box ve sx) sy).ymax sy hsy hy1' hy2' hley
    exact ⟨e1, e2, e3, f1, f2, f3⟩
  · have har : arange (0 : ℚ) (10 + 2) 2 = [0, 2, 4, 6, 8, 10] := by
      have h := arange_succ_eq_map 0 2 (by norm_num) 5
      have he : (0 : ℚ) + (5 : ℕ) * 2 + 2 = 10 + 2 := by push_cast; ring
      rw [he] at h
      rw [h, show List.range 6 = [0, 1, 2, 3, 4, 5] from rfl]
      norm_num
    show Except.ok
        { xmain := arange (0 : ℚ) (10 + 2) 2
          ymain := arange (0 : ℚ) (10 + 2) 2
          xin := (arange (0 : ℚ) (10 + 2) 2).filter
            fun v => (0 : ℚ) ≤ v ∧ v ≤ 10
          yin := (arange (0 : ℚ) (10 + 2) 2).filter
            fun v => (0 : ℚ) ≤ v ∧ v ≤ 10 }
      = Except.ok (⟨[0, 2, 4, 6, 8, 10], [0, 2, 4, 6, 8, 10],
          [0, 2, 4, 6, 8, 10], [0, 2, 4, 6, 8, 10]⟩ : GridRun)
    rw [har]
    norm_num [List.filter]
  · have hls : linspace (0 : ℚ) 10 5 = [0, 5/2, 5, 15/2, 10] := by
      rw [show linspace (0 : ℚ) 10 5
          = (List.range 5).map
              (fun k : ℕ => (0 : ℚ) + (10 - 0) * (k : ℚ) / (((3 : ℕ) : ℚ) + 1))
        from rfl]
      rw [show List.range 5 = [0, 1, 2, 3, 4] from rfl]
      norm_num
    show Except.ok
        { xmain := linspace (0 : ℚ) 10 5
          ymain := linspace (0 : ℚ) 10 5
          xin := (linspace (0 : ℚ) 10 5).filter
            fun v => (0 : ℚ) ≤ v ∧ v ≤ 10
          yin := (linspace (0 : ℚ) 10 5).filter
            fun v => (0 : ℚ) ≤ v ∧ v ≤ 10 }
      = Except.ok (⟨[0, 5/2, 5, 15/2, 10], [0, 5/2, 5, 15/2, 10],
          [0, 5/2, 5, 15/2, 10], [0, 5/2, 5, 15/2, 10]⟩ : GridRun)
    rw [hls]
    norm_num [List.filter]

/-- C3 (witness): the general pair-interval statement applied at the concrete
extent `(0,4,0,2.5)` with intervals `2` and `3`. -/
theorem add_gridlines_ticks_witness :
    (0 : ℚ) < 2 ∧ (0 : ℚ) < 3 ∧
    (Box.xmin ⟨0, 4, 0, 5/2⟩ ≤ Box.xmax ⟨0, 4, 0, 5/2⟩) ∧
    (Box.ymin ⟨0, 4, 0, 5/2⟩ ≤ Box.ymax ⟨0, 4, 0, 5/2⟩) ∧
    (∃ g, add_gridlines ⟨0, 4, 0, 5/2⟩ (some (.pair 2 3)) none none none true
        = .ok g ∧
      g.xmain.head? = some ((_buffer_box ⟨0, 4, 0, 5/2⟩ 2).xmin) ∧
      g.xmain.getLast? = some ((_buffer_box ⟨0, 4, 0, 5/2⟩ 2).xmax) ∧
      List.Chain' (fun p q => q = p + 2) g.xmain ∧
      g.ymain.head?
        = some ((_buffer_box (_buffer_box ⟨0, 4, 0, 5/2⟩ 2) 3).ymin) ∧
      g.ymain.getLast?
        = some ((_buffer_box (_buffer_box ⟨0, 4, 0, 5/2⟩ 2) 3).ymax) ∧
      List.Chain' (fun p q => q = p + 3) g.ymain) :=
  ⟨by norm_num, by norm_num, by norm_num, by norm_num,
    add_gridlines_ticks.1 ⟨0, 4, 0, 5/2⟩ 2 3 (by norm_num) (by norm_num)
      (by norm_num) (by norm_num)⟩

/-! ### Dictionary lookup lemmas -/

lemma lookup_eq_none_of_hasKey_false {k : String} {d : Dict}
    (h : hasKey k d = false) : List.lookup k d = none := by
  induction d with
  | nil => rfl
  | cons p t ih =>
      simp only [hasKey, List.map_cons, List.contains_cons, Bool.or_eq_false_iff,
        beq_eq_false_iff_ne, ne_eq] at h
      simp only [List.lookup]
      cases hk : k == p.1 with
      | true => exact absurd (eq_of_beq hk) h.1
      | false => exact ih (by simpa [hasKey] using h.2)

lemma lookup_append_left {k : String} {d1 : Dict} (d2 : Dict)
    {v : PyVal} (h : List.lookup k d1 = some v) :
    List.lookup k (d1 ++ d2) = some v := by
  induction d1 with
  | nil => simp [List.lookup] at h
  | cons p t ih =>
      simp only [List.cons_append, List.lookup] at h ⊢
      cases hk : k == p.1 with
      | true => rw [hk] at h; exact h
      | false => rw [hk] at h; exact ih h

lemma lookup_append_right {k : String} {d1 : Dict} (d2 : Dict)
    (h : List.lookup k d1 = none) :
    List.lookup k (d1 ++ d2) = List.lookup k d2 := by
  induction d1 with
  | nil => rfl
  | cons p t ih =>
      simp only [List.cons_append, List.lookup] at h ⊢
      cases hk : k == p.1 with
      | true => rw [hk] at h; exact absurd h (by simp)
      | false => rw [hk] at h; exact ih h

/-- Looking a key up in `{**a, **b}` when `b` does not hold that key gives
`a`'s binding. -/
lemma lookup_dictMerge_of_not_mem {k : String} (a b : Dict)
    (h : hasKey k b = false) :
    List.lookup k (dictMerge a b) = List.lookup k a := by
  unfold dictMerge
  induction a with
  | nil => simpa using lookup_eq_none_of_hasKey_false h
  | cons p t ih =>
      by_cases hp : ((b.map Prod.fst).contains p.1) = true
      · rw [List.filter_cons_of_neg (by simpa using hp)]
        rw [ih]
        have hk : (k == p.1) = false := by
          rw [beq_eq_false_iff_ne]
          intro he
          rw [he] at h
          exact absurd hp (by simpa [hasKey] using h)
        simp only [List.lookup, hk]
      · rw [List.filter_cons_of_pos (by simpa using hp)]
        simp only [List.cons_append, List.lookup]
        cases hk : k == p.1 with
        | true => rfl
        | false => exact ih

/-! ### `add_layer` path lemmas -/

/-- The remote geometry call `add_layer` performs during region resolution:
`ee.Geometry.Rectangle(region).getInfo()` when `region` is given, otherwise
`img_obj.geometry(100).bounds().getInfo()`. -/
def regionEffect (a : AddLayerArgs) : Effect :=
  if a.region.isSome then .eeRectangleGetInfo else .eeBoundsGetInfo

/-- A concrete environment of external collaborators, used to instantiate
universally quantified theorems at specific calls. -/
def defaultExternals : Externals :=
  { rectCoords := .vother "coords"
    boundsCoords := [(0, 0), (1, 1)]
    colormap := fun _ _ _ => (0, 0, 0, 1)
    rgb2hex := fun _ => "#000000"
    thumbStatus := 200
    thumbErrorMsg := "" }

/-- When the image-type check passes and the region resolution succeeds (an
explicit region, or a nonempty remote bounds ring), `add_layer` proceeds to
the post-region phase with exactly the region-resolution remote call on the
trace. -/
lemma add_layer_reaches_postRegion (E : Externals) (a : AddLayerArgs)
    (h1 : a.imgOk = true) (h2 : a.region.isSome = true ∨ E.boundsCoords ≠ []) :
    add_layer E a = add_layer_postRegion E a [regionEffect a] := by
  unfold add_layer regionEffect
  rw [h1]
  cases hr : a.region with
  | some r => simp
  | none =>
      cases hbc : E.boundsCoords with
      | nil =>
          rcases h2 with h2 | h2
          · rw [hr] at h2; simp at h2
          · exact absurd hbc h2
      | cons c cs => simp

/-- `add_layer_fetch` always records the dict it was handed as the
`getThumbUrl` argument. -/
lemma add_layer_fetch_thumbArgs (E : Externals) (a : AddLayerArgs)
    (effs : List Effect) (args : Dict) :
    (add_layer_fetch E a effs args).thumbArgs = some args := by
  unfold add_layer_fetch
  split <;> rfl

/-- The dims- and axes-type failures of the post-region phase: the trace stays
as handed in, the result is the corresponding `ValueError`, and no thumbnail
request is recorded. -/
lemma add_layer_postRegion_dims_fail (E : Externals) (a : AddLayerArgs)
    (effs : List Effect) (hd : dimsOk a.dims = false) :
    add_layer_postRegion E a effs =
      { effects := effs
        result := .error (.valueError "provided dims not of type list, tuple, or int")
        thumbArgs := none, visParamsAfter := a.visParams } := by
  unfold add_layer_postRegion
  rw [hd]
  simp

lemma add_layer_postRegion_ax_fail (E : Externals) (a : AddLayerArgs)
    (effs : List Effect) (hd : dimsOk a.dims = true) (hax : a.axOk = false) :
    add_layer_postRegion E a effs =
      { effects := effs
        result := .error (.valueError "provided axes not of type cartopy.mpl.geoaxes.GeoAxes or cartopy.mpl.geoaxes.GeoAxesSubplot")
        thumbArgs := none, visParamsAfter := a.visParams } := by
  unfold add_layer_postRegion
  rw [hd, hax]
  simp

/-- The no-region path with an empty bounds ring fails at tuple unpacking,
after the remote bounds call. -/
lemma add_layer_unpack_fail (E : Externals) (a : AddLayerArgs)
    (h1 : a.imgOk = true) (hr : a.region = none) (hb : E.boundsCoords = []) :
    add_layer E a =
      { effects := [.eeBoundsGetInfo]
        result := .error (.valueError "not enough values to unpack")
        thumbArgs := none, visParamsAfter := a.visParams } := by
  unfold add_layer
  rw [h1, hr, hb]
  simp

/-! ### C1 — `add_layer` validation order -/

/-- C1 (counterexample): a call with a wrong-typed `dims` (and a valid image
handle, axes and region) raises only after the remote
`ee.Geometry.Rectangle(region).getInfo()` call has executed — the trace at the
raise is nonempty, so the `dims` type check is not fail-fast with respect to
remote calls. -/
theorem add_layer_failfast_counterexample :
    (add_layer defaultExternals
      { imgOk := true, region := some ⟨0, 0, 1, 1⟩, dims := .vstr "bad",
        axOk := true }).effects = [.eeRectangleGetInfo] ∧
    (add_layer defaultExternals
      { imgOk := true, region := some ⟨0, 0, 1, 1⟩, dims := .vstr "bad",
        axOk := true }).result
      = .error (.valueError "provided dims not of type list, tuple, or int") :=
  ⟨rfl, rfl⟩

/-- C1 (amended): only the image-handle type check is fail-fast — a wrong
image handle raises with an empty effect trace.  The `dims` and axes type
checks raise before the thumbnail request, the fetch and the draw, but only
after the region-resolution remote call (`Rectangle(region).getInfo()` when a
region is given, else the image's `geometry(100).bounds().getInfo()`) is on
the trace. -/
theorem add_layer_validation_order :
    ∀ (E : Externals) (a : AddLayerArgs),
      (a.imgOk = false →
        (add_layer E a).effects = [] ∧ isErr (add_layer E a).result = true) ∧
      (a.imgOk = true → dimsOk a.dims = false →
        (add_layer E a).effects = [regionEffect a] ∧
        isErr (add_layer E a).result = true ∧
        (add_layer E a).thumbArgs = none) ∧
      (a.imgOk = true → dimsOk a.dims = true → a.axOk = false →
        (add_layer E a).effects = [regionEffect a] ∧
        isErr (add_layer E a).result = true ∧
        (add_layer E a).thumbArgs = none) := by
  intro E a
  refine ⟨?_, ?_, ?_⟩
  · intro h
    unfold add_layer
    rw [h]
    simp [isErr]
  · intro h1 h2
    by_cases hreg : a.region.isSome = true ∨ E.boundsCoords ≠ []
    · rw [add_layer_reaches_postRegion E a h1 hreg,
        add_layer_postRegion_dims_fail E a _ h2]
      exact ⟨rfl, rfl, rfl⟩
    · push_neg at hreg
      have hr : a.region = none := by
        cases hrr : a.region with
        | some r => rw [hrr] at hreg; simp at hreg
        | none => rfl
      rw [add_layer_unpack_fail E a h1 hr hreg.2]
      refine ⟨?_, rfl, rfl⟩
      rw [regionEffect, hr]
      rfl
  · intro h1 h2 h3
    by_cases hreg : a.region.isSome = true ∨ E.boundsCoords ≠ []
    · rw [add_layer_reaches_postRegion E a h1 hreg,
        add_layer_postRegion_ax_fail E a _ h2 h3]
      exact ⟨rfl, rfl, rfl⟩
    · push_neg at hreg
      have hr : a.region = none := by
        cases hrr : a.region with
        | some r => rw [hrr] at hreg; simp at hreg
        | none => rfl
      rw [add_layer_unpack_fail E a h1 hr hreg.2]
      refine ⟨?_, rfl, rfl⟩
      rw [regionEffect, hr]
      rfl

/-- C1 (witness): the three validation-order facts applied at concrete calls:
a wrong image handle, a wrong `dims` with a region given, and wrong axes with
no region given. -/
theorem add_layer_validation_order_witness :
    ((add_layer defaultExternals { imgOk := false, axOk := true }).effects = []
      ∧ isErr (add_layer defaultExternals
          { imgOk := false, axOk := true }).result = true) ∧
    ((add_layer defaultExternals
        { imgOk := true, region := some ⟨0, 0, 1, 1⟩, dims := .vstr "bad",
          axOk := true }).effects
      = [.eeRectangleGetInfo] ∧
      isErr (add_layer defaultExternals
        { imgOk := true, region := some ⟨0, 0, 1, 1⟩, dims := .vstr "bad",
          axOk := true }).result = true ∧
      (add_layer defaultExternals
        { imgOk := true, region := some ⟨0, 0, 1, 1⟩, dims := .vstr "bad",
          axOk := true }).thumbArgs = none) ∧
    ((add_layer defaultExternals
        { imgOk := true, dims := .vint 500, axOk := false }).effects
      = [.eeBoundsGetInfo] ∧
      isErr (add_layer defaultExternals
        { imgOk := true, dims := .vint 500, axOk := false }).result = true ∧
      (add_layer defaultExternals
        { imgOk := true, dims := .vint 500, axOk := false }).thumbArgs
        = none) :=
  ⟨(add_layer_validation_order defaultExternals _).1 rfl,
   (add_layer_validation_order defaultExternals _).2.1 rfl rfl,
   (add_layer_validation_order defaultExternals _).2.2 rfl rfl rfl⟩

lemma lookup_palette_baseArgs (E : Externals) (a : AddLayerArgs) :
    List.lookup "palette" (baseArgs E a) = none := by
  unfold baseArgs
  split
  · split
    · rfl
    · rfl
  · split
    · rfl
    · rfl

/-- The wrong-image path of `add_layer`. -/
lemma add_layer_img_fail (E : Externals) (a : AddLayerArgs)
    (himg : a.imgOk = false) :
    add_layer E a =
      { effects := []
        result := .error (.valueError "provided `img_obj` is not of type ee.Image")
        thumbArgs := none, visParamsAfter := a.visParams } := by
  unfold add_layer
  rw [himg]
  simp

/-- The `cmap`/`palette` configuration conflict raises `KeyError` before the
request dict is finished — no thumbnail URL, fetch or draw. -/
lemma add_layer_postRegion_conflict (E : Externals) (a : AddLayerArgs)
    (effs : List Effect) (c : String) (vp : Dict)
    (hc : a.cmap = some c) (hcne : c ≠ "") (hv : a.visParams = some vp)
    (hpal : hasKey "palette" vp = true)
    (hd : dimsOk a.dims = true) (hax : a.axOk = true) :
    add_layer_postRegion E a effs =
      { effects := effs
        result := .error
          (.keyError "cannot provide `palette` in vis_params if `cmap` is specified")
        thumbArgs := none, visParamsAfter := a.visParams } := by
  have hne : vp.isEmpty = false := by
    cases vp with
    | nil => simp [hasKey] at hpal
    | cons p t => rfl
  unfold add_layer_postRegion
  rw [hd, hax, hv]
  rw [if_neg (by simp), if_neg (by simp)]
  rw [if_pos (by simp [visTruthy, hne])]
  rw [if_pos ⟨by simp [hc, cmapTruthy, hcne], by simpa using hpal⟩]

/-- No fetch-phase effect sits on a pure region-resolution trace. -/
lemma no_fetch_in_regionEffect (a : AddLayerArgs) :
    Effect.getThumbUrl ∉ [regionEffect a] ∧
    Effect.requestsGet ∉ [regionEffect a] ∧
    Effect.imshow ∉ [regionEffect a] := by
  unfold regionEffect
  split <;> simp

/-- The successful palette-injection path of the post-region phase: a truthy
`cmap`, a truthy `vis_params` without a `palette` key. -/
lemma add_layer_postRegion_palette_inject (E : Externals) (a : AddLayerArgs)
    (effs : List Effect) (c : String) (vp : Dict)
    (hd : dimsOk a.dims = true) (hax : a.axOk = true)
    (hc : a.cmap = some c) (hcne : c ≠ "")
    (hv : a.visParams = some vp) (hne : vp ≠ [])
    (hpal : hasKey "palette" vp = false) :
    add_layer_postRegion E a effs
      = add_layer_fetch E a effs
          (dictMerge (baseArgs E a ++
            [("palette", .vstr (String.intercalate "," (build_palette E c 256)))])
            vp) := by
  have hemp : vp.isEmpty = false := by
    cases vp with
    | nil => exact absurd rfl hne
    | cons p t => rfl
  unfold add_layer_postRegion
  rw [hd, hax, hv]
  rw [if_neg (by simp), if_neg (by simp)]
  rw [if_pos (by simp [visTruthy, hemp])]
  rw [if_neg (by simp [hpal])]
  rw [if_pos (by simp [hc, cmapTruthy, hcne])]
  simp [hc]

/-- The skip path of the `vis_params` block: a `None` or empty dict leaves
the request dict at its base form (in particular, `cmap` is never expanded). -/
lemma add_layer_postRegion_vis_falsy (E : Externals) (a : AddLayerArgs)
    (effs : List Effect)
    (hd : dimsOk a.dims = true) (hax : a.axOk = true)
    (hvo : a.visParams = none ∨ a.visParams = some []) :
    add_layer_postRegion E a effs
      = add_layer_fetch E a effs (baseArgs E a) := by
  unfold add_layer_postRegion
  rw [hd, hax]
  rw [if_neg (by simp), if_neg (by simp)]
  rw [if_neg ?hvt]
  case hvt =>
    rcases hvo with h | h <;> rw [h] <;> simp [visTruthy]

/-! ### C2 — `cmap` palette injection -/

/-- C2 (counterexample): a call with `cmap` given and an empty `vis_params`
dict — which does not contain a `palette` key — sends a thumbnail request
whose arguments have no `palette` entry at all: the whole `cmap` expansion
sits inside `if vis_params:`, which an empty (or `None`) mapping skips. -/
theorem add_layer_palette_injection_counterexample :
    (add_layer defaultExternals
      { imgOk := true, region := some ⟨0, 0, 1, 1⟩, dims := .vint 1000,
        axOk := true, cmap := some "viridis", visParams := some [] }).thumbArgs
      = some [("format", .vstr "png"), ("region", .vother "coords"),
              ("dimensions", .vint 1000)] ∧
    List.lookup "palette"
      [("format", PyVal.vstr "png"), ("region", PyVal.vother "coords"),
       ("dimensions", PyVal.vint 1000)] = none :=
  ⟨rfl, rfl⟩

/-- C2 (amended): when `cmap` is given (a nonempty name) and `vis_params` is a
*nonempty* mapping without a `palette` key, the outgoing thumbnail request
holds a `palette` entry equal to the comma-join of `build_palette(cmap)`;
when `vis_params` is `None` or empty, the `cmap` expansion is skipped and the
outgoing request holds no `palette` entry. -/
theorem add_layer_palette_injection :
    ∀ (E : Externals) (a : AddLayerArgs) (c : String),
      a.imgOk = true → dimsOk a.dims = true → a.axOk = true →
      (a.region.isSome = true ∨ E.boundsCoords ≠ []) →
      a.cmap = some c → c ≠ "" →
      (∀ vp : Dict, a.visParams = some vp → vp ≠ [] →
          hasKey "palette" vp = false →
        ∃ args, (add_layer E a).thumbArgs = some args ∧
          List.lookup "palette" args
            = some (.vstr (String.intercalate "," (build_palette E c 256)))) ∧
      ((a.visParams = none ∨ a.visParams = some []) →
        ∃ args, (add_layer E a).thumbArgs = some args ∧
          List.lookup "palette" args = none) := by
  intro E a c h1 h2 h3 hreg hc hcne
  rw [add_layer_reaches_postRegion E a h1 hreg]
  constructor
  · intro vp hv hne hpal
    rw [add_layer_postRegion_palette_inject E a _ c vp h2 h3 hc hcne hv hne hpal]
    refine ⟨_, add_layer_fetch_thumbArgs _ _ _ _, ?_⟩
    rw [lookup_dictMerge_of_not_mem _ vp hpal]
    rw [lookup_append_right _ (lookup_palette_baseArgs E a)]
    rfl
  · intro hvo
    rw [add_layer_postRegion_vis_falsy E a _ h2 h3 hvo]
    exact ⟨_, add_layer_fetch_thumbArgs _ _ _ _, lookup_palette_baseArgs E a⟩

/-- C2 (witness): the injection statement applied at a concrete call with
`cmap="viridis"` and `vis_params={"min": 0}`. -/
theorem add_layer_palette_injection_witness :
    ∃ args,
      (add_layer defaultExternals
        { imgOk := true, region := some ⟨0, 0, 1, 1⟩, dims := .vint 1000,
          axOk := true, cmap := some "viridis",
          visParams := some [("min", .vint 0)] }).thumbArgs = some args ∧
      List.lookup "palette" args
        = some (.vstr (String.intercalate ","
            (build_palette defaultExternals "viridis" 256))) :=
  (add_layer_palette_injection defaultExternals
    { imgOk := true, region := some ⟨0, 0, 1, 1⟩, dims := .vint 1000,
      axOk := true, cmap := some "viridis",
      visParams := some [("min", .vint 0)] } "viridis"
    rfl rfl rfl (Or.inl rfl) rfl (by decide)).1
    [("min", .vint 0)] rfl (by decide) rfl

/-! ### C9 — `cmap`/`palette` conflict -/

/-- C9: whenever both a (truthy) `cmap` and a `palette` key in `vis_params`
are supplied, the call fails and never reaches the thumbnail phase: no
`getThumbUrl`, no HTTP fetch, no draw, and no request dict is recorded.  When
the antecedent type checks pass (and the region resolution succeeds), the
failure is exactly the `KeyError` configuration conflict. -/
theorem add_layer_conflict_no_fetch :
    ∀ (E : Externals) (a : AddLayerArgs) (c : String) (vp : Dict),
      a.cmap = some c → c ≠ "" → a.visParams = some vp →
      hasKey "palette" vp = true →
      isErr (add_layer E a).result = true ∧
      Effect.getThumbUrl ∉ (add_layer E a).effects ∧
      Effect.requestsGet ∉ (add_layer E a).effects ∧
      Effect.imshow ∉ (add_layer E a).effects ∧
      (add_layer E a).thumbArgs = none ∧
      (a.imgOk = true → dimsOk a.dims = true → a.axOk = true →
        (a.region.isSome = true ∨ E.boundsCoords ≠ []) →
        (add_layer E a).result = .error
          (.keyError "cannot provide `palette` in vis_params if `cmap` is specified")) := by
  intro E a c vp hc hcne hv hpal
  cases himg : a.imgOk with
  | false =>
      rw [add_layer_img_fail E a himg]
      refine ⟨rfl, by simp, by simp, by simp, rfl, ?_⟩
      intro h
      exact absurd h (by simp)
  | true =>
      by_cases hreg : a.region.isSome = true ∨ E.boundsCoords ≠ []
      · rw [add_layer_reaches_postRegion E a himg hreg]
        obtain ⟨m1, m2, m3⟩ := no_fetch_in_regionEffect a
        cases hd : dimsOk a.dims with
        | false =>
            rw [add_layer_postRegion_dims_fail E a _ hd]
            refine ⟨rfl, m1, m2, m3, rfl, ?_⟩
            intro _ h
            exact absurd h (by simp)
        | true =>
            cases hax : a.axOk with
            | false =>
                rw [add_layer_postRegion_ax_fail E a _ hd hax]
                refine ⟨rfl, m1, m2, m3, rfl, ?_⟩
                intro _ _ h
                exact absurd h (by simp)
            | true =>
                rw [add_layer_postRegion_conflict E a _ c vp hc hcne hv hpal hd hax]
                exact ⟨rfl, m1, m2, m3, rfl, fun _ _ _ _ => rfl⟩
      · push_neg at hreg
        have hr : a.region = none := by
          cases hrr : a.region with
          | some r => rw [hrr] at hreg; simp at hreg
          | none => rfl
        rw [add_layer_unpack_fail E a himg hr hreg.2]
        refine ⟨rfl, by simp, by simp, by simp, rfl, ?_⟩
        intro _ _ _ h
        rcases h with h | h
        · rw [hr] at h; exact absurd h (by simp)
        · exact absurd hreg.2 h

/-- C9 (witness): the conflict statement applied at a concrete call with
`cmap="viridis"` and `vis_params={"palette": "#000000,#ffffff"}`, including
the exact `KeyError`. -/
theorem add_layer_conflict_no_fetch_witness :
    isErr (add_layer defaultExternals
      { imgOk := true, region := some ⟨0, 0, 1, 1⟩, dims := .vint 1000,
        axOk := true, cmap := some "viridis",
        visParams := some [("palette", .vstr "#000000,#ffffff")] }).result
      = true ∧
    (add_layer defaultExternals
      { imgOk := true, region := some ⟨0, 0, 1, 1⟩, dims := .vint 1000,
        axOk := true, cmap := some "viridis",
        visParams := some [("palette", .vstr "#000000,#ffffff")] }).result
      = .error
        (.keyError "cannot provide `palette` in vis_params if `cmap` is specified") := by
  have h := add_layer_conflict_no_fetch defaultExternals
    { imgOk := true, region := some ⟨0, 0, 1, 1⟩, dims := .vint 1000,
      axOk := true, cmap := some "viridis",
      visParams := some [("palette", .vstr "#000000,#ffffff")] }
    "viridis" [("palette", .vstr "#000000,#ffffff")]
    rfl (by decide) rfl rfl
  exact ⟨h.1, h.2.2.2.2.2 rfl rfl rfl (Or.inl rfl)⟩

/-! ### C5 — colorbar placement resolution -/

/-- Every branch of the post-placement phase keeps the resolved drawing
sub-region. -/
lemma add_colorbar_post_caxResolved (a : ColorbarArgs) (cax : CaxVal)
    (kwargs1 : Dict) :
    (add_colorbar_post a cax kwargs1).caxResolved = some cax := by
  unfold add_colorbar_post
  split
  · rfl
  · split
    · rfl
    · split
      · rfl
      · split
        · rfl
        · split
          · rfl
          · rfl

/-- C5: supplying neither a truthy `loc` nor a `cax` keyword raises
`ValueError` (and no drawing sub-region is resolved); and whenever `loc` is
one of the four position strings, the resolved drawing sub-region is the
fixed rectangle `posOpts[loc]`, regardless of the remaining keyword arguments
— in particular a simultaneously supplied `cax` keyword is ignored for
placement, deterministically prioritizing `loc`. -/
theorem add_colorbar_placement :
    ∀ a : ColorbarArgs, a.axOk = true →
      (a.loc.truthy = false → hasKey "cax" a.kwargs = false →
        (add_colorbar a).result
          = .error (.valueError "loc or cax keywords must be specified") ∧
        (add_colorbar a).caxResolved = none) ∧
      (∀ s : String, a.loc = .vstr s →
        (s = "left" ∨ s = "right" ∨ s = "bottom" ∨ s = "top") →
        (add_colorbar a).caxResolved = some (.fromLoc (posOpts s))) := by
  intro a hax
  constructor
  · intro hloc hcax
    unfold add_colorbar placementResolve
    rw [hax, hloc]
    rw [if_neg (by simp), if_neg (by simp)]
    rw [if_neg (by simp [hcax])]
    exact ⟨rfl, rfl⟩
  · intro s hs hmem
    have htr : PyVal.truthy a.loc = true := by
      rw [hs]
      rcases hmem with rfl | rfl | rfl | rfl <;> rfl
    have hp : placementResolve a = .ok (.fromLoc (posOpts s), a.kwargs) := by
      unfold placementResolve
      rw [if_pos htr, hs]
      show (if s = "left" ∨ s = "right" ∨ s = "bottom" ∨ s = "top" then
          Except.ok (CaxVal.fromLoc (posOpts s), a.kwargs)
        else Except.error (PyError.valueError
          "provided loc not of type str. options are \x22left\x22, \x22top\x22, \x22right\x22, or \x22bottom\x22"))
        = Except.ok (CaxVal.fromLoc (posOpts s), a.kwargs)
      rw [if_pos hmem]
    unfold add_colorbar
    rw [hax]
    rw [if_neg (by simp), hp]
    exact add_colorbar_post_caxResolved a _ a.kwargs

/-- C5 (witness): placement resolution at two concrete calls — one with
neither `loc` nor `cax`, one with both `loc="left"` and a `cax` keyword. -/
theorem add_colorbar_placement_witness :
    ((add_colorbar
          { axOk := true, visParams := [], loc := .vnone, kwargs := [] }).result
      = .error (.valueError "loc or cax keywords must be specified") ∧
     (add_colorbar
          { axOk := true, visParams := [], loc := .vnone,
            kwargs := [] }).caxResolved = none) ∧
    (add_colorbar
        { axOk := true, visParams := [], loc := .vstr "left",
          kwargs := [("cax", .vother "mycax")] }).caxResolved
      = some (.fromLoc (posOpts "left")) :=
  ⟨(add_colorbar_placement
      { axOk := true, visParams := [], loc := .vnone, kwargs := [] } rfl).1
      rfl rfl,
   (add_colorbar_placement
      { axOk := true, visParams := [], loc := .vstr "left",
        kwargs := [("cax", .vother "mycax")] } rfl).2 "left" rfl (Or.inl rfl)⟩

/-! ### C4 — colorbar vmin/vmax/alpha resolution -/

lemma add_layer_fetch_visAfter (E : Externals) (a : AddLayerArgs)
    (effs : List Effect) (args : Dict) :
    (add_layer_fetch E a effs args).visParamsAfter = a.visParams := by
  unfold add_layer_fetch
  split <;> rfl

lemma add_layer_postRegion_visAfter (E : Externals) (a : AddLayerArgs)
    (effs : List Effect) :
    (add_layer_postRegion E a effs).visParamsAfter = a.visParams := by
  unfold add_layer_postRegion
  repeat' split
  all_goals dsimp only
  repeat' split
  all_goals first
    | rfl
    | exact add_layer_fetch_visAfter E a effs _

lemma add_layer_visAfter (E : Externals) (a : AddLayerArgs) :
    (add_layer E a).visParamsAfter = a.visParams := by
  unfold add_layer
  split
  · rfl
  · split
    · exact add_layer_postRegion_visAfter E a _
    · split
      · rfl
      · exact add_layer_postRegion_visAfter E a _

lemma add_colorbar_post_visAfter (a : ColorbarArgs) (cax : CaxVal)
    (kwargs1 : Dict) :
    (add_colorbar_post a cax kwargs1).visParamsAfter = a.visParams := by
  unfold add_colorbar_post
  split
  · rfl
  · split
    · rfl
    · split
      · rfl
      · split
        · rfl
        · split
          · rfl
          · rfl

/-- C10: neither `add_layer` nor `add_colorbar` mutates the caller-supplied
`vis_params` mapping — on every path, completing or raising, the `vis_params`
object after the call holds exactly the entries it had before (`add_layer`
merges it into a fresh request dict, `add_colorbar` only reads it). -/
theorem vis_params_not_mutated :
    ∀ (E : Externals) (aL : AddLayerArgs) (aC : ColorbarArgs),
      (add_layer E aL).visParamsAfter = aL.visParams ∧
      (add_colorbar aC).visParamsAfter = aC.visParams := by
  intro E aL aC
  refine ⟨add_layer_visAfter E aL, ?_⟩
  unfold add_colorbar
  split
  · rfl
  · split
    · rfl
    · exact add_colorbar_post_visAfter aC _ _
